import Mathlib

/-!
Shallow embedding of the startup orchestration, global error capture and
bounded error log of the repository triji-classroom (single relevant source
file: App.js).  The definitions below are translated from the source:

* the bounded error log (App.js, logErrorToStorage, lines 121-136);
* the two global error handlers (handleUnhandledRejection, lines 139-154,
  and handleGlobalError, lines 157-172) and the handler registration
  (lines 174-181);
* the startup sequence initializeApp (lines 234-351), both as a
  sequential per-run action trace and as a timed two-run execution model
  that reflects the React semantics of the source: the effect that invokes
  the sequence is keyed on the authChecked state (line 351), so it runs
  again when authChecked flips, and every run closes over the state values
  (authChecked, initialRouteName) of the render that created it, so an
  in-flight run keeps reading its stale snapshot;
* the auth state listener (lines 185-232).

Machine integers play no role (all quantities are small natural-number
millisecond counts), so Nat is used throughout.
-/

set_option maxRecDepth 4000

/-- The two routes the startup sequence can decide between (the navigator
of App.js has more screens, but only Login and MainApp are ever assigned
to initialRouteName during startup). -/
inductive Route where
  | Login
  | MainApp
deriving DecidableEq, Repr

/-- An entry of the persisted error log; shape from App.js lines 125-130. -/
structure ErrorLogEntry where
  timestamp : String
  context : String
  message : String
  stack : String
deriving DecidableEq, Repr

/-- A JavaScript error value as consumed by the handlers: its message and
stack may be absent (undefined), and asString models String(error). -/
structure JsError where
  message : Option String
  stack : Option String
  asString : String
deriving DecidableEq, Repr

/-- JavaScript a || b for string-valued a: undefined and the empty string
are falsy, anything else is truthy. -/
def jsOr (v : Option String) (fallback : String) : String :=
  match v with
  | some s => if s = "" then fallback else s
  | none => fallback

/-- JavaScript arr.slice(-n): the last n elements (all of them when the
array is shorter). -/
def jsSliceLast (n : Nat) (l : List α) : List α :=
  l.drop (l.length - n)

/-- The log entry built at App.js lines 125-130: timestamp, context,
error.message || String(error), error.stack || a placeholder. -/
def mkLogEntry (now : String) (ctx : String) (e : JsError) : ErrorLogEntry :=
  ⟨now, ctx, jsOr e.message e.asString, jsOr e.stack "No stack trace"⟩

/-- The pure list effect of one append of logErrorToStorage (App.js lines
125-132): push the entry, then persist only the last 50 entries
(errorLogs.slice(-50)). -/
def appendErrorLog (entry : ErrorLogEntry) (errorLogs : List ErrorLogEntry) :
    List ErrorLogEntry :=
  jsSliceLast 50 (errorLogs ++ [entry])

/-- Which of the fallible external operations used by the error-capture
path throw when invoked (AsyncStorage.getItem, AsyncStorage.setItem,
Sentry.captureException). -/
structure StorageBehavior where
  getItemThrows : Bool
  setItemThrows : Bool
  sentryThrows : Bool
deriving DecidableEq, Repr

/-- A JavaScript try/catch block: run the body; on a thrown error run the
handler. -/
def tryCatchE (body : Except JsError α) (handler : JsError → Except JsError α) :
    Except JsError α :=
  match body with
  | Except.ok a => Except.ok a
  | Except.error e => handler e

def storageError : JsError :=
  ⟨some "storage failure", none, "Error: storage failure"⟩

def sentryError : JsError :=
  ⟨some "sentry failure", none, "Error: sentry failure"⟩

/-- logErrorToStorage (App.js lines 121-136) in the exception monad: the
whole body (getItem, parse, push, setItem of the last 50) is wrapped in a
try/catch whose catch block only logs to the console, leaving the
persisted list unchanged.  The result is the persisted error_logs list
after the call. -/
def logErrorToStorageE (beh : StorageBehavior) (now : String)
    (stored : List ErrorLogEntry) (e : JsError) (ctx : String) :
    Except JsError (List ErrorLogEntry) :=
  tryCatchE
    (do
      let errorLogs ←
        if beh.getItemThrows then Except.error storageError
        else Except.ok stored
      let newLogs := appendErrorLog (mkLogEntry now ctx e) errorLogs
      if beh.setItemThrows then Except.error storageError
      else Except.ok newLogs)
    (fun _ => Except.ok stored)

/-- The persisted list after a logErrorToStorage call (the handlers invoke
it fire-and-forget, so a rejection inside it never reaches them). -/
def logErrorToStorageRun (beh : StorageBehavior) (now : String)
    (stored : List ErrorLogEntry) (e : JsError) (ctx : String) :
    List ErrorLogEntry :=
  match logErrorToStorageE beh now stored e ctx with
  | Except.ok l => l
  | Except.error _ => stored

/-- Observable effects of one invocation of a global error handler. -/
structure CaptureEffects where
  logs : List ErrorLogEntry
  sentryCaptured : Bool
  alertShown : Bool
  crashed : Bool
deriving DecidableEq, Repr

/-- handleGlobalError (App.js lines 157-172) in the exception monad.
It logs to the console, appends to the persisted log via
logErrorToStorage, forwards to Sentry inside its own try/catch when the
DSN is configured, and for a fatal error outside development only writes
a console line (deliberately not crashing); it shows no alert. -/
def handleGlobalErrorE (_dev : Bool) (dsn : Bool) (beh : StorageBehavior)
    (now : String) (stored : List ErrorLogEntry) (e : JsError)
    (isFatal : Bool) : Except JsError CaptureEffects := do
  let logs := logErrorToStorageRun beh now stored e
    (if isFatal then "Fatal Error" else "Non-Fatal Error")
  let captured ←
    if dsn then
      tryCatchE
        (do
          let _ ←
            if beh.sentryThrows then Except.error sentryError
            else Except.ok ()
          pure true)
        (fun _ => pure false)
    else pure false
  pure ⟨logs, captured, false, false⟩

/-- handleUnhandledRejection (App.js lines 139-154) in the exception
monad: append to the log, forward to Sentry inside a try/catch when
configured, and in development show a blocking alert for every rejection
(there is no fatality flag on rejections). -/
def handleUnhandledRejectionE (dev : Bool) (dsn : Bool)
    (beh : StorageBehavior) (now : String) (stored : List ErrorLogEntry)
    (e : JsError) : Except JsError CaptureEffects := do
  let logs := logErrorToStorageRun beh now stored e
    "Unhandled Promise Rejection"
  let captured ←
    if dsn then
      tryCatchE
        (do
          let _ ←
            if beh.sentryThrows then Except.error sentryError
            else Except.ok ()
          pure true)
        (fun _ => pure false)
    else pure false
  pure ⟨logs, captured, dev, false⟩

/-- Which process-wide handlers the error-capture effect actually
registers. -/
structure InstalledHandlers where
  globalInstalled : Bool
  rejectionInstalled : Bool
deriving DecidableEq, Repr

/-- App.js lines 174-181: only ErrorUtils.setGlobalHandler(handleGlobalError)
is registered (when ErrorUtils exists); no listener for unhandled promise
rejections is ever installed — the source comments that
window.addEventListener for unhandledrejection only works on web. -/
def installErrorHandlers (errorUtilsDefined : Bool) : InstalledHandlers :=
  ⟨errorUtilsDefined, false⟩

/-- Minimum splash display time, App.js line 237. -/
def minDisplayTime : Nat := 2000

/-- Polling interval of the auth wait loop, App.js line 291. -/
def authCheckInterval : Nat := 100

/-- Ceiling of the auth wait loop, App.js line 292. -/
def maxAuthWait : Nat := 5000

/-- The auth wait loop of App.js lines 290-297, counted in iterations.
Each iteration sleeps authCheckInterval ms and advances authWaitTime by
authCheckInterval.  The authChecked operand is the value the running
closure sees; it is constant for the lifetime of one run (the React state
setter never mutates the captured const). -/
def authWaitIterations (authChecked : Bool) (authWaitTime : Nat) : Nat :=
  if h : authChecked = false ∧ authWaitTime < maxAuthWait then
    authWaitIterations authChecked (authWaitTime + authCheckInterval) + 1
  else 0
termination_by maxAuthWait - authWaitTime
decreasing_by
  simp only [maxAuthWait, authCheckInterval] at *
  omega

/-- Observable steps of one run of the startup sequence initializeApp. -/
inductive RunAction where
  | setLoadingMessage (msg : String)
  | checkUpdate
  | fetchUpdate
  | reload
  | sentryCapture
  | netInfoFetch
  | sleep (ms : Nat)
  | setInitialRoute (r : Route)
  | registerNotifications
  | setupListeners
  | setReady
deriving DecidableEq, Repr

/-- Environment of one run of initializeApp: build flavour, outcomes of
the external calls, and the values of the React state the run closed over
at its creation (its snapshot).  elapsedAtPacing is the wall-clock
Date.now() - startTime observed at App.js line 325. -/
structure RunEnv where
  dev : Bool
  updateCheck : Except Unit Bool
  fetchOk : Bool
  sentryConfigured : Bool
  netFetch : Except Unit Bool
  snapshotAuthChecked : Bool
  snapshotRoute : Option Route
  elapsedAtPacing : Nat
deriving Repr

/-- The OTA update phase, App.js lines 243-272: skipped in development;
otherwise check, and when an update is available fetch it and reload
(abandoning the rest of the sequence).  A throw from the check or the
fetch is caught by the inner catch (logged, optionally forwarded to
Sentry) and the sequence continues.  Returns the emitted actions and
whether the run reloaded. -/
def updatePhase (env : RunEnv) : List RunAction × Bool :=
  if env.dev then ([], false)
  else
    match env.updateCheck with
    | Except.error _ =>
        ([RunAction.setLoadingMessage "Checking for updates...",
          RunAction.checkUpdate]
          ++ (if env.sentryConfigured then [RunAction.sentryCapture] else []),
         false)
    | Except.ok false =>
        ([RunAction.setLoadingMessage "Checking for updates...",
          RunAction.checkUpdate], false)
    | Except.ok true =>
        if env.fetchOk then
          ([RunAction.setLoadingMessage "Checking for updates...",
            RunAction.checkUpdate,
            RunAction.setLoadingMessage "Downloading update...",
            RunAction.fetchUpdate, RunAction.reload], true)
        else
          ([RunAction.setLoadingMessage "Checking for updates...",
            RunAction.checkUpdate,
            RunAction.setLoadingMessage "Downloading update...",
            RunAction.fetchUpdate]
            ++ (if env.sentryConfigured then [RunAction.sentryCapture] else []),
           false)

/-- The outer catch of initializeApp, App.js lines 340-347: default the
route to Login when the closure snapshot of initialRouteName is unset,
then mark the app ready. -/
def catchPhase (env : RunEnv) : List RunAction :=
  (if env.snapshotRoute = none then [RunAction.setInitialRoute Route.Login]
   else [])
    ++ [RunAction.setReady]

/-- Minimum-display pacing and readiness, App.js lines 324-334:
remainingTime = max(0, minDisplayTime - elapsed); sleep it when positive;
then set ready.  Nat subtraction truncates at zero exactly like
Math.max(0, ...). -/
def pacingSuffix (elapsed : Nat) : List RunAction :=
  (if minDisplayTime - elapsed > 0 then
    [RunAction.setLoadingMessage "Almost ready...",
     RunAction.sleep (minDisplayTime - elapsed)]
   else [])
    ++ [RunAction.setReady]

/-- The part of initializeApp after the update phase, App.js lines
274-334: connectivity probe (a throw here escapes to the outer catch),
settle delay, auth poll wait against the closure snapshot of authChecked,
Login default when the closure snapshot of initialRouteName is unset,
notification registration, then pacing and readiness. -/
def afterUpdatePhase (env : RunEnv) : List RunAction :=
  match env.netFetch with
  | Except.error _ => [RunAction.netInfoFetch] ++ catchPhase env
  | Except.ok _ =>
      [RunAction.netInfoFetch, RunAction.sleep 500,
       RunAction.setLoadingMessage "Checking authentication..."]
        ++ List.replicate (authWaitIterations env.snapshotAuthChecked 0)
             (RunAction.sleep authCheckInterval)
        ++ (if env.snapshotRoute = none then
              [RunAction.setInitialRoute Route.Login]
            else [])
        ++ [RunAction.setLoadingMessage "Setting up notifications...",
            RunAction.registerNotifications,
            RunAction.setLoadingMessage "Finalizing...",
            RunAction.setupListeners]
        ++ pacingSuffix env.elapsedAtPacing

/-- One full run of initializeApp (App.js lines 235-348) as the list of
its observable actions. -/
def initAppRunTrace (env : RunEnv) : List RunAction :=
  [RunAction.setLoadingMessage "Loading assets..."]
    ++ (updatePhase env).1
    ++ (if (updatePhase env).2 then [] else afterUpdatePhase env)

/-- Timed actions of the whole launch (both overlapping runs of the
startup sequence plus the auth state listener callback).  setRoute and
setReady carry the id of their writer: 0 is the auth callback, 1 and 2
are the first and second run of the startup sequence. -/
inductive TAction where
  | runStart (id : Nat)
  | authCallback
  | setRoute (src : Nat) (r : Route)
  | setAuthChecked
  | setReady (id : Nat)
deriving DecidableEq, Repr

/-- The shared React state the writers mutate (loadingMessage omitted:
nothing reads it back). -/
structure SimState where
  isReady : Bool
  route : Option Route
  authChecked : Bool
deriving DecidableEq, Repr

def initState : SimState := ⟨false, none, false⟩

/-- Effect of one timed action on the shared state.  Route writes by the
runs are unconditional here because their guards in the source test only
the closure snapshot of the run that emits them, which is resolved when
the action list is built. -/
def applyT (s : SimState) : TAction → SimState
  | TAction.runStart _ => s
  | TAction.authCallback => s
  | TAction.setRoute _ r => ⟨s.isReady, some r, s.authChecked⟩
  | TAction.setAuthChecked => ⟨s.isReady, s.route, true⟩
  | TAction.setReady _ => ⟨true, s.route, s.authChecked⟩

def applyAll (s : SimState) (acts : List TAction) : SimState :=
  acts.foldl applyT s

/-- Timed actions of one run of initializeApp in a development launch
(the update phase is skipped, App.js line 243), parameterised by the
start time of the run, its closure snapshot of initialRouteName and
authChecked, and the duration/outcome of the connectivity probe.  When
the probe throws, the outer catch (lines 340-347) runs at start + netDur:
it writes Login only when the snapshot of the route is unset, then sets
ready.  Otherwise the run sleeps 500 ms (line 285), polls the snapshot of
authChecked for 0 or maxAuthWait ms (lines 290-297, the closure value
never changes during the run), writes the Login default when the snapshot
of the route is unset (lines 300-303), and finally pads the elapsed time
up to minDisplayTime before setting ready (lines 324-334). -/
def runTimedActions (id start : Nat) (snapRoute : Option Route)
    (snapAuthChecked : Bool) (netDur : Nat) (netThrows : Bool) :
    List (Nat × TAction) :=
  (start, TAction.runStart id) ::
    (if netThrows then
      (if snapRoute = none then
        [(start + netDur, TAction.setRoute id Route.Login)]
       else [])
        ++ [(start + netDur, TAction.setReady id)]
     else
      (if snapRoute = none then
        [(start + netDur + 500
            + (if snapAuthChecked then 0 else maxAuthWait),
          TAction.setRoute id Route.Login)]
       else [])
        ++ [(start + netDur + 500
              + (if snapAuthChecked then 0 else maxAuthWait)
              + (minDisplayTime
                  - (netDur + 500
                      + (if snapAuthChecked then 0 else maxAuthWait))),
             TAction.setReady id)])

/-- Parameters of one launch: when (and whether) the Firebase auth
callback first fires, whether it reports a signed-in user, and the
duration/outcome of the connectivity probe of each run. -/
structure LaunchEnv where
  authFiresAt : Option Nat
  authHasUser : Bool
  run1NetDur : Nat
  run1NetThrows : Bool
  run2NetDur : Nat
  run2NetThrows : Bool
deriving Repr

/-- Actions of the first run of the startup sequence: it starts at mount
(time 0) with the initial-render snapshot (route unset, authChecked
false), per App.js lines 67-70 and 350-351. -/
def run1Actions (env : LaunchEnv) : List (Nat × TAction) :=
  runTimedActions 1 0 none false env.run1NetDur env.run1NetThrows

/-- Shared state just before the auth callback fires at time a: the
effects of all run-1 actions strictly earlier than a. -/
def stateBefore (env : LaunchEnv) (a : Nat) : SimState :=
  applyAll initState
    (((run1Actions env).filter (fun p => p.1 < a)).map (fun p => p.2))

/-- Timed actions of the auth state callback (App.js lines 190-216): it
writes MainApp for a signed-in user and Login otherwise, guarded by
hasSetInitialRoute (false at the first call) and by isReady, then sets
authChecked. -/
def authCbActions (hasUser : Bool) (sAtA : SimState) (a : Nat) :
    List (Nat × TAction) :=
  (a, TAction.authCallback) ::
    ((if sAtA.isReady then []
      else
        [(a, TAction.setRoute 0
            (if hasUser then Route.MainApp else Route.Login))])
      ++ [(a, TAction.setAuthChecked)])

/-- Shared state right after the auth callback ran: this is the snapshot
the second run closes over (the effect keyed on authChecked, App.js line
351, re-runs after the render that committed the new state). -/
def stateAfterCb (env : LaunchEnv) (a : Nat) : SimState :=
  applyAll (stateBefore env a)
    ((authCbActions env.authHasUser (stateBefore env a) a).map (fun p => p.2))

/-- Insert a timed action into a time-sorted list, after all actions with
an earlier-or-equal time (so repeated insertion in emission order is
stable and reflects the causal order at equal times). -/
def insertByTime (p : Nat × TAction) :
    List (Nat × TAction) → List (Nat × TAction)
  | [] => [p]
  | q :: qs => if p.1 < q.1 then p :: q :: qs else q :: insertByTime p qs

/-- Stable sort of timed actions by time. -/
def sortByTime (l : List (Nat × TAction)) : List (Nat × TAction) :=
  l.foldl (fun acc p => insertByTime p acc) []

/-- The timed action sequence of a whole launch.  When the auth callback
never fires, only run 1 executes (authChecked never changes, so the
effect keyed on it never re-runs).  When it fires at time a, the callback
actions are interleaved and a second run starts at a with the post-render
snapshot, because setAuthChecked flips the dependency of the effect at
App.js line 351 from false to true. -/
def launchTimeline (env : LaunchEnv) : List (Nat × TAction) :=
  match env.authFiresAt with
  | none => run1Actions env
  | some a =>
      sortByTime
        (run1Actions env
          ++ authCbActions env.authHasUser (stateBefore env a) a
          ++ runTimedActions 2 a (stateAfterCb env a).route
               (stateAfterCb env a).authChecked env.run2NetDur
               env.run2NetThrows)

/-- Final shared state of a launch. -/
def launchFinal (env : LaunchEnv) : SimState :=
  applyAll initState ((launchTimeline env).map (fun p => p.2))

def isSetReady : TAction → Bool
  | TAction.setReady _ => true
  | _ => false

/-- The routing decision of a launch: the value of initialRouteName at
the moment ready first becomes true (the splash gate of App.js line 353
lifts then, and the navigator latches initialRouteName at that mount). -/
def routeWhenReady : SimState → List TAction → Option Route
  | _, [] => none
  | s, act :: rest =>
      if isSetReady act then (applyT s act).route
      else routeWhenReady (applyT s act) rest

/-- All non-unset assignments to initialRouteName during a launch, in
order. -/
def routeWrites (tl : List (Nat × TAction)) : List Route :=
  tl.filterMap (fun p =>
    match p.2 with
    | TAction.setRoute _ r => some r
    | _ => none)

def isRunStart : TAction → Bool
  | TAction.runStart _ => true
  | _ => false

/-- How many times the startup sequence is entered during a launch. -/
def startCount (tl : List (Nat × TAction)) : Nat :=
  tl.countP (fun p => isRunStart p.2)

/-- Development launch in which Firebase reports a signed-in user 300 ms
after mount. -/
def envEarlyAuth : LaunchEnv := ⟨some 300, true, 0, false, 0, false⟩

/-- Development launch in which Firebase reports a signed-in user
5200 ms after mount: inside the poll window of run 1, which elapses at
5500 ms (500 ms settle delay + 5000 ms ceiling). -/
def envLateAuth : LaunchEnv := ⟨some 5200, true, 0, false, 0, false⟩

/-- Development launch in which Firebase reports a signed-in user 300 ms
after mount and the connectivity probe of run 1 throws 600 ms after
mount, sending run 1 into the outer catch. -/
def envCatch : LaunchEnv := ⟨some 300, true, 600, true, 0, false⟩

/-- Healthy external services: storage and Sentry do not throw. -/
def behOk : StorageBehavior := ⟨false, false, false⟩

/-- A sample error value. -/
def sampleError : JsError := ⟨some "boom", some "trace", "Error: boom"⟩

/-- A sample log entry. -/
def sampleEntry : ErrorLogEntry := ⟨"2026-01-01", "ctx", "msg", "stk"⟩

/-- A full log of 50 distinct entries. -/
def sampleLogs : List ErrorLogEntry :=
  (List.range 50).map (fun i => ⟨toString i, "ctx", "msg", "stk"⟩)

/-- A development run that reaches the pacing step with 800 ms elapsed. -/
def envPace : RunEnv :=
  ⟨true, Except.ok false, true, false, Except.ok true, true,
   some Route.MainApp, 800⟩

/-- A development run that reaches the pacing step with 2500 ms elapsed. -/
def envSlow : RunEnv :=
  ⟨true, Except.ok false, true, false, Except.ok true, false, none, 2500⟩

/-- A production run whose update check reports an available update. -/
def envUpdate : RunEnv :=
  ⟨false, Except.ok true, true, false, Except.ok true, false, none, 0⟩

theorem authWaitIterations_stop (b : Bool) (t : Nat) (h : maxAuthWait ≤ t) :
    authWaitIterations b t = 0 := by
  rw [authWaitIterations.eq_def]
  rw [dif_neg]
  intro hc
  exact absurd hc.2 (Nat.not_lt.mpr h)

theorem authWaitIterations_step (t : Nat) (h : t < maxAuthWait) :
    authWaitIterations false t
      = authWaitIterations false (t + authCheckInterval) + 1 := by
  conv_lhs => rw [authWaitIterations.eq_def]
  rw [dif_pos ⟨rfl, h⟩]

theorem authWaitIterations_false_aux :
    ∀ k : Nat, k ≤ 50 →
      authWaitIterations false (maxAuthWait - k * authCheckInterval) = k := by
  intro k
  induction k with
  | zero =>
      intro _
      exact authWaitIterations_stop false _ (by simp)
  | succ n ih =>
      intro hk
      have h1 : maxAuthWait - (n + 1) * authCheckInterval < maxAuthWait := by
        simp only [maxAuthWait, authCheckInterval]
        omega
      rw [authWaitIterations_step _ h1]
      have h2 : maxAuthWait - (n + 1) * authCheckInterval + authCheckInterval
          = maxAuthWait - n * authCheckInterval := by
        simp only [maxAuthWait, authCheckInterval]
        omega
      rw [h2, ih (by omega)]

theorem authWaitIterations_false_eval : authWaitIterations false 0 = 50 := by
  have h := authWaitIterations_false_aux 50 (by omega)
  simpa [maxAuthWait, authCheckInterval] using h

theorem authWaitIterations_true_eval : authWaitIterations true 0 = 0 := by
  rw [authWaitIterations.eq_def]
  rw [dif_neg]
  intro hc
  exact Bool.noConfusion hc.1
theorem insertByTime_perm (p : Nat × TAction) :
    ∀ l : List (Nat × TAction), List.Perm (insertByTime p l) (p :: l) := by
  intro l
  induction l with
  | nil => simp [insertByTime]
  | cons q qs ih =>
      simp only [insertByTime]
      by_cases h : p.1 < q.1
      · rw [if_pos h]
      · rw [if_neg h]
        exact (ih.cons q).trans (List.Perm.swap p q qs)

theorem sortByTime_perm_aux :
    ∀ (l acc : List (Nat × TAction)),
      List.Perm (l.foldl (fun a p => insertByTime p a) acc) (l ++ acc) := by
  intro l
  induction l with
  | nil => simp
  | cons p ps ih =>
      intro acc
      simp only [List.foldl_cons]
      refine (ih (insertByTime p acc)).trans ?_
      refine (List.Perm.append_left ps (insertByTime_perm p acc)).trans ?_
      exact List.perm_middle

theorem sortByTime_perm (l : List (Nat × TAction)) :
    List.Perm (sortByTime l) l := by
  have h := sortByTime_perm_aux l []
  simpa [sortByTime] using h

theorem startCount_sortByTime (l : List (Nat × TAction)) :
    startCount (sortByTime l) = startCount l :=
  (sortByTime_perm l).countP_eq _

theorem startCount_append (l1 l2 : List (Nat × TAction)) :
    startCount (l1 ++ l2) = startCount l1 + startCount l2 :=
  List.countP_append _ _ _

theorem startCount_run (id start : Nat) (r : Option Route) (ac : Bool)
    (nd : Nat) (nt : Bool) :
    startCount (runTimedActions id start r ac nd nt) = 1 := by
  simp only [runTimedActions, startCount]
  by_cases h : nt
  · by_cases hr : r = none <;>
      simp [h, hr, List.countP_cons, List.countP_append, isRunStart]
  · by_cases hr : r = none <;>
      simp [h, hr, List.countP_cons, List.countP_append, isRunStart]

theorem startCount_authCb (u : Bool) (s : SimState) (a : Nat) :
    startCount (authCbActions u s a) = 0 := by
  simp only [authCbActions, startCount]
  by_cases h : s.isReady <;>
    simp [h, List.countP_cons, List.countP_append, isRunStart]
theorem appendErrorLog_length_le (e : ErrorLogEntry)
    (l : List ErrorLogEntry) : (appendErrorLog e l).length ≤ 50 := by
  simp [appendErrorLog, jsSliceLast]
  omega

theorem foldl_appendErrorLog_length_le :
    ∀ (es acc : List ErrorLogEntry), acc.length ≤ 50 →
      (es.foldl (fun l e => appendErrorLog e l) acc).length ≤ 50 := by
  intro es
  induction es with
  | nil =>
      intro acc h
      simpa using h
  | cons e es ih =>
      intro acc _
      simp only [List.foldl_cons]
      exact ih _ (appendErrorLog_length_le e acc)

/-- Claim C5: the persisted error log never holds more than 50 entries
after any sequence of appends; appending to a full log of 50 evicts
exactly the oldest entry and keeps the relative order of the remaining
entries. -/
theorem c5_error_log_bounded :
    (∀ (e : ErrorLogEntry) (logs : List ErrorLogEntry),
        (appendErrorLog e logs).length ≤ 50) ∧
    (∀ es : List ErrorLogEntry,
        (es.foldl (fun l e => appendErrorLog e l) []).length ≤ 50) ∧
    (∀ (e : ErrorLogEntry) (logs : List ErrorLogEntry), logs.length = 50 →
        appendErrorLog e logs = logs.drop 1 ++ [e]) := by
  refine ⟨appendErrorLog_length_le,
    fun es => foldl_appendErrorLog_length_le es [] (by simp), ?_⟩
  intro e logs h
  have h1 : logs.length + 1 - 50 = 1 := by omega
  have h2 : (1 : Nat) ≤ logs.length := by omega
  simp only [appendErrorLog, jsSliceLast, List.length_append,
    List.length_singleton, h1]
  rw [List.drop_append_of_le_length h2]

/-- Claim C5 witness: appending to a concrete full log of 50 entries. -/
theorem c5_witness :
    sampleLogs.length = 50 ∧
    appendErrorLog sampleEntry sampleLogs = sampleLogs.drop 1 ++ [sampleEntry] :=
  ⟨by simp [sampleLogs],
   c5_error_log_bounded.2.2 sampleEntry sampleLogs (by simp [sampleLogs])⟩
/-- Claim C10: the error-capture path is total — for every error and
every combination of storage and reporter failures, logErrorToStorage,
handleGlobalError and handleUnhandledRejection all return normally
(no exception escapes to the caller). -/
theorem c10_capture_total (dev dsn : Bool) (beh : StorageBehavior)
    (now ctx : String) (stored : List ErrorLogEntry) (e : JsError)
    (isFatal : Bool) :
    (logErrorToStorageE beh now stored e ctx).isOk = true ∧
    (handleGlobalErrorE dev dsn beh now stored e isFatal).isOk = true ∧
    (handleUnhandledRejectionE dev dsn beh now stored e).isOk = true := by
  rcases beh with ⟨g, st, sn⟩
  cases g <;> cases st <;> cases sn <;> cases dsn <;>
    simp [logErrorToStorageE, handleGlobalErrorE, handleUnhandledRejectionE,
      logErrorToStorageRun, tryCatchE, Except.isOk, Except.toBool,
      bind, Except.bind, pure, Except.pure]

/-- Claim C3 counterexample: a fatal error reaching the installed global
handler in a development build produces no alert (the handler shows no
alert in any build), and the unhandled-rejection handler is never
installed; the claim asserts a blocking alert for fatal errors in
non-production builds. -/
theorem c3_counterexample :
    (installErrorHandlers true).rejectionInstalled = false ∧
    handleGlobalErrorE true true behOk "t0" [] sampleError true
      = Except.ok ⟨[mkLogEntry "t0" "Fatal Error" sampleError],
          true, false, false⟩ :=
  ⟨rfl, rfl⟩

/-- Claim C3 as amended: every error passed to the installed global
handler is appended to the bounded local log (when storage is healthy)
and forwarded to the Error Reporter exactly when it is configured; the
handler never surfaces an alert and never crashes the process, in any
build and for any fatality flag; and no handler for unhandled promise
rejections is ever installed. -/
theorem c3_amended_capture (dev dsn u : Bool) (now : String)
    (stored : List ErrorLogEntry) (e : JsError) (isFatal : Bool) :
    (installErrorHandlers u).rejectionInstalled = false ∧
    handleGlobalErrorE dev dsn behOk now stored e isFatal
      = Except.ok ⟨appendErrorLog (mkLogEntry now
            (if isFatal then "Fatal Error" else "Non-Fatal Error") e) stored,
          dsn, false, false⟩ := by
  refine ⟨rfl, ?_⟩
  cases dsn <;>
    simp [handleGlobalErrorE, logErrorToStorageRun, logErrorToStorageE,
      tryCatchE, behOk, bind, Except.bind, pure, Except.pure]
theorem setReady_mem_pacingSuffix (e : Nat) :
    RunAction.setReady ∈ pacingSuffix e := by
  by_cases h : minDisplayTime - e > 0 <;> simp [pacingSuffix, h]

/-- Claim C7: whenever a run reaches the pacing step with elapsed time e,
it sleeps exactly minDisplayTime - e milliseconds, then sets ready, when
e < minDisplayTime, and performs no extra sleep when e ≥ minDisplayTime;
the trace of the run ends with exactly this pacing suffix. -/
theorem c7_minimum_display_pacing (env : RunEnv) (e : Nat) (b : Bool)
    (he : env.elapsedAtPacing = e)
    (hnet : env.netFetch = Except.ok b)
    (hup : (updatePhase env).2 = false) :
    (e < minDisplayTime →
      pacingSuffix e = [RunAction.setLoadingMessage "Almost ready...",
        RunAction.sleep (minDisplayTime - e), RunAction.setReady]) ∧
    (minDisplayTime ≤ e → pacingSuffix e = [RunAction.setReady]) ∧
    ∃ p, initAppRunTrace env = p ++ pacingSuffix e := by
  refine ⟨?_, ?_, ?_⟩
  · intro h
    have hpos : minDisplayTime - e > 0 := by omega
    simp [pacingSuffix, hpos]
  · intro h
    have hz : minDisplayTime - e = 0 := by omega
    simp [pacingSuffix, hz]
  · refine ⟨[RunAction.setLoadingMessage "Loading assets..."]
        ++ (updatePhase env).1
        ++ ([RunAction.netInfoFetch, RunAction.sleep 500,
             RunAction.setLoadingMessage "Checking authentication..."]
          ++ List.replicate (authWaitIterations env.snapshotAuthChecked 0)
               (RunAction.sleep authCheckInterval)
          ++ (if env.snapshotRoute = none then
                [RunAction.setInitialRoute Route.Login]
              else [])
          ++ [RunAction.setLoadingMessage "Setting up notifications...",
              RunAction.registerNotifications,
              RunAction.setLoadingMessage "Finalizing...",
              RunAction.setupListeners]), ?_⟩
    simp [initAppRunTrace, afterUpdatePhase, hup, hnet, he]

/-- Claim C7 witness: a concrete run reaching pacing with 800 ms elapsed. -/
theorem c7_witness :
    (800 < minDisplayTime →
      pacingSuffix 800 = [RunAction.setLoadingMessage "Almost ready...",
        RunAction.sleep (minDisplayTime - 800), RunAction.setReady]) ∧
    (minDisplayTime ≤ 800 → pacingSuffix 800 = [RunAction.setReady]) ∧
    ∃ p, initAppRunTrace envPace = p ++ pacingSuffix 800 :=
  c7_minimum_display_pacing envPace 800 true rfl rfl rfl

/-- Claim C1 (evaluation at the failing launch): with a signed-in user
reported 300 ms after mount, initialRouteName receives two distinct
non-unset writes — MainApp from the auth callback at 300 ms, then Login
at 5500 ms from the timeout default of run 1, whose guard tests the stale
closure snapshot (null) instead of the current value — and the second
write lands after ready became true at 2300 ms: the route at the moment
ready first becomes true is MainApp, yet the final route is Login.  This
contradicts both the at-most-once discipline and the immutability of the
route after ready. -/
theorem c1_stale_default_eval :
    routeWrites (launchTimeline envEarlyAuth)
        = [Route.MainApp, Route.Login] ∧
    routeWhenReady initState
        ((launchTimeline envEarlyAuth).map (fun p => p.2))
        = some Route.MainApp ∧
    launchFinal envEarlyAuth = ⟨true, some Route.Login, true⟩ := by
  decide

/-- Claim C2 (evaluation at the failing launch): the auth callback fires
with a signed-in user at 5200 ms, before the bounded wait of run 1
elapses at 5500 ms, yet the routing decision at the moment ready first
becomes true is Login, and the final route is Login — not MainApp as the
claim requires: the timeout default of run 1 overwrites the route from its
stale null snapshot before setting ready. -/
theorem c2_late_auth_eval :
    envLateAuth.authHasUser = true ∧
    envLateAuth.authFiresAt = some 5200 ∧
    routeWhenReady initState
        ((launchTimeline envLateAuth).map (fun p => p.2))
        = some Route.Login ∧
    (launchFinal envLateAuth).route = some Route.Login := by
  decide

/-- Claim C6 (evaluation at the failing launch): the auth callback sets
MainApp at 300 ms, the connectivity probe of run 1 throws at 600 ms, and
the outer catch — testing the stale null snapshot of run 1 —
overwrites the already-set MainApp with Login instead of leaving it
unchanged. -/
theorem c6_catch_overwrite_eval :
    launchTimeline envCatch
      = [(0, TAction.runStart 1), (300, TAction.authCallback),
         (300, TAction.setRoute 0 Route.MainApp),
         (300, TAction.setAuthChecked), (300, TAction.runStart 2),
         (600, TAction.setRoute 1 Route.Login),
         (600, TAction.setReady 1), (2300, TAction.setReady 2)] ∧
    routeWrites (launchTimeline envCatch)
        = [Route.MainApp, Route.Login] := by
  decide

/-- Claim C4 counterexample: in the launch envEarlyAuth the startup
sequence is entered twice — the effect that invokes it is keyed on
authChecked, so it re-runs when the auth callback flips that flag —
contradicting the claim that it executes at most once per launch. -/
theorem c4_counterexample :
    startCount (launchTimeline envEarlyAuth) = 2 := by
  decide

/-- Claim C4 as amended: the startup sequence runs once per distinct
value of the authChecked flag — exactly once when the auth callback never
fires, and exactly twice (two overlapping runs) when it does. -/
theorem c4_amended_runs (env : LaunchEnv) :
    startCount (launchTimeline env)
      = if env.authFiresAt.isSome then 2 else 1 := by
  rcases env with ⟨fa, hu, d1, t1, d2, t2⟩
  cases fa with
  | none =>
      simp [launchTimeline, run1Actions, startCount_run]
  | some a =>
      simp only [launchTimeline, Option.isSome, if_true, run1Actions]
      rw [startCount_sortByTime, startCount_append, startCount_append,
        startCount_run, startCount_authCb, startCount_run]
theorem reload_not_mem_catchPhase (env : RunEnv) :
    RunAction.reload ∉ catchPhase env := by
  by_cases h : env.snapshotRoute = none <;> simp [catchPhase, h]

theorem reload_not_mem_pacingSuffix (e : Nat) :
    RunAction.reload ∉ pacingSuffix e := by
  by_cases h : minDisplayTime - e > 0 <;> simp [pacingSuffix, h]

theorem reload_not_mem_afterUpdatePhase (env : RunEnv) :
    RunAction.reload ∉ afterUpdatePhase env := by
  cases hnf : env.netFetch with
  | error u =>
      simp [afterUpdatePhase, hnf, reload_not_mem_catchPhase env]
  | ok b =>
      by_cases hr : env.snapshotRoute = none <;>
        simp [afterUpdatePhase, hnf, hr, List.mem_replicate,
          reload_not_mem_pacingSuffix env.elapsedAtPacing]

/-- Claim C8: in a production launch whose update check reports an
available update, the run fetches the update before reloading and the
trace ends at the reload — no later startup step follows it; when the
fetch itself throws, reload is never invoked at all. -/
theorem c8_update_reload (env : RunEnv) (hdev : env.dev = false)
    (hav : env.updateCheck = Except.ok true) :
    (env.fetchOk = true →
      initAppRunTrace env
        = [RunAction.setLoadingMessage "Loading assets...",
           RunAction.setLoadingMessage "Checking for updates...",
           RunAction.checkUpdate,
           RunAction.setLoadingMessage "Downloading update...",
           RunAction.fetchUpdate, RunAction.reload]) ∧
    (env.fetchOk = false → RunAction.reload ∉ initAppRunTrace env) := by
  constructor
  · intro hf
    simp [initAppRunTrace, updatePhase, hdev, hav, hf]
  · intro hf
    by_cases hs : env.sentryConfigured <;>
      simp [initAppRunTrace, updatePhase, hdev, hav, hf, hs,
        reload_not_mem_afterUpdatePhase env]

/-- Claim C8 witness: a concrete production run with an available update. -/
theorem c8_witness :
    initAppRunTrace envUpdate
      = [RunAction.setLoadingMessage "Loading assets...",
         RunAction.setLoadingMessage "Checking for updates...",
         RunAction.checkUpdate,
         RunAction.setLoadingMessage "Downloading update...",
         RunAction.fetchUpdate, RunAction.reload] :=
  (c8_update_reload envUpdate rfl rfl).1 rfl

/-- Claim C9: the auth poll wait always terminates — it runs at most
maxAuthWait / authCheckInterval = 50 iterations whatever the authChecked
flag does, and the run then proceeds all the way to setting ready. -/
theorem c9_auth_wait_bounded (env : RunEnv) (b : Bool)
    (hnet : env.netFetch = Except.ok b)
    (hup : (updatePhase env).2 = false) :
    authWaitIterations env.snapshotAuthChecked 0
        ≤ maxAuthWait / authCheckInterval ∧
    ∃ p s, initAppRunTrace env
        = p ++ List.replicate (authWaitIterations env.snapshotAuthChecked 0)
            (RunAction.sleep authCheckInterval) ++ s
      ∧ RunAction.setReady ∈ s := by
  constructor
  · cases hsn : env.snapshotAuthChecked <;>
      simp [authWaitIterations_false_eval, authWaitIterations_true_eval,
        maxAuthWait, authCheckInterval]
  · refine ⟨[RunAction.setLoadingMessage "Loading assets..."]
        ++ (updatePhase env).1
        ++ [RunAction.netInfoFetch, RunAction.sleep 500,
            RunAction.setLoadingMessage "Checking authentication..."],
      (if env.snapshotRoute = none then
        [RunAction.setInitialRoute Route.Login]
       else [])
        ++ [RunAction.setLoadingMessage "Setting up notifications...",
            RunAction.registerNotifications,
            RunAction.setLoadingMessage "Finalizing...",
            RunAction.setupListeners]
        ++ pacingSuffix env.elapsedAtPacing, ?_, ?_⟩
    · simp [initAppRunTrace, afterUpdatePhase, hup, hnet]
    · simp [setReady_mem_pacingSuffix]

/-- Claim C9 witness: a concrete development run whose auth flag snapshot
is already set. -/
theorem c9_witness :
    authWaitIterations envPace.snapshotAuthChecked 0
        ≤ maxAuthWait / authCheckInterval ∧
    ∃ p s, initAppRunTrace envPace
        = p ++ List.replicate (authWaitIterations envPace.snapshotAuthChecked 0)
            (RunAction.sleep authCheckInterval) ++ s
      ∧ RunAction.setReady ∈ s :=
  c9_auth_wait_bounded envPace true rfl rfl
